import Mathlib

/-!
Shallow embedding of the Horust supervision core:
`src/horust/runtime/mod.rs` (scheduler, guarded status transitions,
restart/failure strategies, force-kill check) and `src/horust/bus.rs`
(broadcast bus with sender identities).

Durations and instants are modelled as natural numbers of milliseconds;
`Duration.as_secs` is millisecond division by 1000. Rust panics
(`unwrap` on a missing hashmap key or a missing service name) are
modelled by `Option`, with `none` standing for the panic.
-/

namespace Horust

/-- Modelled from the spec: `ServiceStatus` lives in the missing
`formats` module; the spec lists its nine variants. -/
inductive ServiceStatus where
  | Initial
  | Starting
  | Started
  | Running
  | InKilling
  | Success
  | Failed
  | FinishedFailed
  | Finished
deriving DecidableEq, Repr

/-- Modelled from the spec: restart strategies from the missing `formats` module. -/
inductive RestartStrategy where
  | Never
  | OnFailure
  | Always
deriving DecidableEq, Repr

/-- Modelled from the spec: failure strategies from the missing `formats` module. -/
inductive FailureStrategy where
  | Shutdown
  | KillDependents
  | Ignore
deriving DecidableEq, Repr

/-- Modelled from the spec: the `restart` section of a service
(`strategy`, `attempts`, `backoff` duration in milliseconds). -/
structure Restart where
  strategy : RestartStrategy
  attempts : Nat
  backoff : Nat
deriving DecidableEq, Repr

/-- Modelled from the spec: the `failure` section of a service. -/
structure Failure where
  strategy : FailureStrategy
  successful_exit_code : List Int
deriving DecidableEq, Repr

/-- Modelled from the spec: the `termination` section of a service
(`signal` as a signal number, `wait` duration in milliseconds,
`die_if_failed` peer names). -/
structure Termination where
  signal : Nat
  wait : Nat
  die_if_failed : List String
deriving DecidableEq, Repr

/-- Modelled from the spec: the immutable `Service` record from the
missing `formats` module; the health-check configuration is opaque here. -/
structure Service where
  name : String
  command : String
  dependencies : List String
  healthiness : Option String
  restart : Restart
  failure : Failure
  termination : Termination
deriving DecidableEq, Repr

/-- Modelled from the spec: the `Event` bus payload from the missing
`formats` module. -/
inductive Event where
  | StatusChanged (name : String) (status : ServiceStatus)
  | ServiceExited (name : String) (code : Int)
  | Run (name : String)
  | Kill (name : String)
  | ForceKill (name : String)
  | PidChanged (name : String) (pid : Nat)
  | ShuttingDownInitiated
  | Exited (name : String) (success : Bool)
deriving DecidableEq, Repr

/-- Modelled from the spec: the mutable `ServiceHandler` record from the
missing `service_handler` module (status, pid, restart counter,
shutdown-start instant). -/
structure ServiceHandler where
  service : Service
  status : ServiceStatus
  pid : Option Nat
  restart_attempts : Nat
  shutting_down_start : Option Nat
deriving DecidableEq, Repr

namespace ServiceHandler

/-- Modelled from the spec: accessor for the service name. -/
def name (sh : ServiceHandler) : String := sh.service.name

/-- Modelled from the spec: `restart_attempts_are_over()` returns
`restart_attempts > service.restart.attempts`. -/
def restart_attempts_are_over (sh : ServiceHandler) : Bool :=
  sh.restart_attempts > sh.service.restart.attempts

/-- Modelled from the spec: `shutting_down_started()` sets
`shutting_down_start = now()`. -/
def shutting_down_started (now : Nat) (sh : ServiceHandler) : ServiceHandler :=
  { sh with shutting_down_start := some now }

/-- Modelled from the spec: status predicate projecting the enum. -/
def is_initial (sh : ServiceHandler) : Bool := sh.status = ServiceStatus.Initial

/-- Modelled from the spec: status predicate projecting the enum. -/
def is_running (sh : ServiceHandler) : Bool := sh.status = ServiceStatus.Running

/-- Modelled from the spec: status predicate projecting the enum. -/
def is_started (sh : ServiceHandler) : Bool := sh.status = ServiceStatus.Started

/-- Modelled from the spec: status predicate projecting the enum. -/
def is_starting (sh : ServiceHandler) : Bool := sh.status = ServiceStatus.Starting

/-- Modelled from the spec: status predicate projecting the enum. -/
def is_in_killing (sh : ServiceHandler) : Bool := sh.status = ServiceStatus.InKilling

end ServiceHandler

/-- The `allowed_transitions` hashmap literal built at the top of
`handle_status_changed_event` (runtime/mod.rs lines 249-261). The map has
no entry for `Starting`, so lookup at `Starting` is `none`; the source
then calls `.unwrap()` on the lookup. -/
def allowed_transitions (target : ServiceStatus) : Option (List ServiceStatus) :=
  match target with
  | ServiceStatus.Initial => some [ServiceStatus.Success, ServiceStatus.Failed]
  | ServiceStatus.Started => some [ServiceStatus.Starting]
  | ServiceStatus.InKilling => some [ServiceStatus.Running, ServiceStatus.Started]
  | ServiceStatus.Running => some [ServiceStatus.Started]
  | ServiceStatus.FinishedFailed => some [ServiceStatus.Failed, ServiceStatus.InKilling]
  | ServiceStatus.Success => some [ServiceStatus.Starting, ServiceStatus.Running]
  | ServiceStatus.Failed => some [ServiceStatus.Starting, ServiceStatus.Running]
  | ServiceStatus.Finished =>
      some [ServiceStatus.Success, ServiceStatus.InKilling, ServiceStatus.Initial]
  | ServiceStatus.Starting => none

/-- `handle_status_changed_event` (runtime/mod.rs lines 243-280).
`none` models the panic of `allowed_transitions.get(&new_status).unwrap()`.
Inside the allowed branch the source first forces `status := Initial` and
then matches on `new_status`; the `Started` arm carries the guard
`allowed.contains(&service_handler.status)` evaluated on the already-reset
status, and a failed guard falls through to the catch-all arm. -/
def handle_status_changed_event (new_status : ServiceStatus)
    (sh : ServiceHandler) : Option ServiceHandler :=
  match allowed_transitions new_status with
  | none => none
  | some allowed =>
      if sh.status ∈ allowed then
        let sh1 : ServiceHandler := { sh with status := ServiceStatus.Initial }
        some (match new_status with
          | ServiceStatus.Started =>
              if sh1.status ∈ allowed then
                { sh1 with status := ServiceStatus.Started, restart_attempts := 0 }
              else
                { sh1 with status := ServiceStatus.Started }
          | ns => { sh1 with status := ns })
      else
        some sh

/-- Side effects performed by `apply_event` outside the supervisor state:
health-check preparation, fork-exec requests to the spawner, and signals
sent to a pid (`kill` wrapper in runtime/mod.rs lines 350-372). -/
inductive SideEffect where
  | PrepareHealthCheck (healthiness : Option String)
  | SpawnForkExec (service : Service) (backoff : Nat)
  | SendSignal (pid : Nat) (signal : Nat)
deriving DecidableEq, Repr

/-- The `Runtime` struct (runtime/mod.rs lines 18-22); the `Repo` it owns
is its list of service handlers (the bus connector carries no
supervisor state). -/
structure Runtime where
  is_shutting_down : Bool
  services : List ServiceHandler
deriving DecidableEq, Repr

/-- Modelled from the spec: `Repo.get_sh(name)` from the missing `repo`
module; `none` where the source panics on an absent name. -/
def findSh (rt : Runtime) (name : String) : Option ServiceHandler :=
  rt.services.find? (fun sh => sh.service.name = name)

/-- Modelled from the spec: updating the handler of a named service in
place through `Repo.get_mut_sh(name)`; service names are unique, so the
first match is the handler. -/
def updateSh (name : String) (f : ServiceHandler → ServiceHandler) :
    List ServiceHandler → List ServiceHandler
  | [] => []
  | sh :: rest =>
      if sh.service.name = name then f sh :: rest
      else sh :: updateSh name f rest

/-- Replace the state of one named service inside the runtime. -/
def setSh (rt : Runtime) (name : String) (f : ServiceHandler → ServiceHandler) :
    Runtime :=
  { rt with services := updateSh name f rt.services }

/-- Modelled from the spec: `is_service_runnable(sh)` from the missing
`repo` module — `sh.status == Initial` and every dependency is in
`{Running, Started}`. -/
def is_service_runnable (rt : Runtime) (sh : ServiceHandler) : Bool :=
  sh.is_initial &&
    sh.service.dependencies.all (fun dep =>
      match findSh rt dep with
      | some dsh =>
          dsh.status = ServiceStatus.Running || dsh.status = ServiceStatus.Started
      | none => false)

/-- Modelled from the spec: `get_dependents(name)` from the missing
`repo` module — names of the services that list `name` as a dependency. -/
def get_dependents (rt : Runtime) (name : String) : List String :=
  (rt.services.filter (fun sh => name ∈ sh.service.dependencies)).map
    (fun sh => sh.service.name)

/-- Modelled from the spec: `get_die_if_failed(name)` from the missing
`repo` module — names of the services whose `termination.die_if_failed`
contains `name`. -/
def get_die_if_failed (rt : Runtime) (name : String) : List String :=
  (rt.services.filter (fun sh => name ∈ sh.service.termination.die_if_failed)).map
    (fun sh => sh.service.name)

/-- The `kill` wrapper (runtime/mod.rs lines 350-372) as the signal it
emits: the given signal, or by default the service's termination signal,
to the handler's pid when one is present; errors are absorbed and a
missing pid only logs. -/
def kill (sh : ServiceHandler) (signal : Option Nat) : List SideEffect :=
  let signal := signal.getD sh.service.termination.signal
  match sh.pid with
  | some pid => [SideEffect.SendSignal pid signal]
  | none => []

/-- `handle_restart_strategy` (runtime/mod.rs lines 283-304). -/
def handle_restart_strategy (service : Service) (is_failed : Bool) : Event :=
  match service.restart.strategy with
  | RestartStrategy.Never =>
      if is_failed then Event.StatusChanged service.name ServiceStatus.FinishedFailed
      else Event.StatusChanged service.name ServiceStatus.Finished
  | RestartStrategy.OnFailure =>
      if is_failed then Event.StatusChanged service.name ServiceStatus.Initial
      else Event.StatusChanged service.name ServiceStatus.Finished
  | RestartStrategy.Always => Event.StatusChanged service.name ServiceStatus.Initial

/-- `handle_failure_strategy` (runtime/mod.rs lines 307-324). -/
def handle_failure_strategy (deps : List String) (failed_sh : Service) : List Event :=
  match failed_sh.failure.strategy with
  | FailureStrategy.Shutdown => [Event.ShuttingDownInitiated]
  | FailureStrategy.KillDependents =>
      deps.foldr (fun sh acc =>
        Event.StatusChanged sh ServiceStatus.InKilling :: Event.Kill sh :: acc) []
  | FailureStrategy.Ignore => []

/-- `should_force_kill` (runtime/mod.rs lines 327-346). The elapsed time
and the termination wait are both truncated to whole seconds by
`Duration::as_secs` before the comparison; `now` is the current instant
supplied to `Instant::elapsed`. -/
def should_force_kill (now : Nat) (sh : ServiceHandler) : Bool :=
  match sh.pid with
  | none => false
  | some _ =>
      match sh.shutting_down_start with
      | some start => (now - start) / 1000 > sh.service.termination.wait / 1000
      | none => false

/-- `Runtime::next` (runtime/mod.rs lines 138-192), threading the
(unmodified, `&self`) runtime state alongside the emitted events. The
match guards of the source become nested conditionals: a status whose
guard fails falls through to the catch-all empty list. In the `Failed`
branch the `die_if_failed` peers' events are built with the closure
`ev_status`, which names the service handler under scrutiny, paired with
`Kill(sh_name)` naming the peer. -/
def nextR (rt : Runtime) (now : Nat) (sh : ServiceHandler) :
    Runtime × List Event :=
  if is_service_runnable rt sh && !rt.is_shutting_down then
    (rt, [Event.Run sh.name])
  else
    match sh.status with
    | ServiceStatus.Initial =>
        if rt.is_shutting_down then
          (rt, [Event.StatusChanged sh.name ServiceStatus.Finished])
        else (rt, [])
    | ServiceStatus.Success => (rt, [handle_restart_strategy sh.service false])
    | ServiceStatus.Failed =>
        let attempts_are_over := sh.restart_attempts > sh.service.restart.attempts
        let failure_evs := handle_failure_strategy (get_dependents rt sh.name) sh.service
        let other_services_termination :=
          (get_die_if_failed rt sh.name).foldr (fun sh_name acc =>
            Event.StatusChanged sh.name ServiceStatus.InKilling ::
              Event.Kill sh_name :: acc) []
        let service_ev :=
          if !attempts_are_over then
            Event.StatusChanged sh.name ServiceStatus.FinishedFailed
          else handle_restart_strategy sh.service true
        (rt, failure_evs ++ service_ev :: other_services_termination)
    | ServiceStatus.InKilling =>
        if should_force_kill now sh then
          (rt, [Event.ForceKill sh.name,
                Event.StatusChanged sh.name ServiceStatus.FinishedFailed])
        else (rt, [])
    | ServiceStatus.Running =>
        if rt.is_shutting_down then (rt, [Event.Kill sh.name]) else (rt, [])
    | ServiceStatus.Started =>
        if rt.is_shutting_down then (rt, [Event.Kill sh.name]) else (rt, [])
    | _ => (rt, [])

/-- The events emitted by `Runtime::next` for one service handler. -/
def next (rt : Runtime) (now : Nat) (sh : ServiceHandler) : List Event :=
  (nextR rt now sh).2

/-- The signal number of `SIGKILL`. -/
def SIGKILL : Nat := 9

/-- `Runtime::apply_event` (runtime/mod.rs lines 42-135), returning the
updated runtime plus the side effects requested from the spawner,
health-check and OS, or `none` where the source panics (`get_sh` /
`get_mut_sh` on an unknown name, or the `Starting` lookup inside
`handle_status_changed_event`). `now` stands for `Instant::now()`. -/
def apply_event (now : Nat) (rt : Runtime) (ev : Event) :
    Option (Runtime × List SideEffect) :=
  match ev with
  | Event.StatusChanged name new_status =>
      match findSh rt name with
      | none => none
      | some sh =>
          match handle_status_changed_event new_status sh with
          | none => none
          | some sh2 => some (setSh rt name (fun _ => sh2), [])
  | Event.ServiceExited name exit_code =>
      match findSh rt name with
      | none => none
      | some sh =>
          let has_failed := exit_code ∉ sh.service.failure.successful_exit_code
          let new_status :=
            if has_failed then
              if sh.status ∈ [ServiceStatus.Started, ServiceStatus.Initial] then
                if sh.restart_attempts + 1 > sh.service.restart.attempts then
                  ServiceStatus.Failed
                else ServiceStatus.Initial
              else ServiceStatus.Failed
            else ServiceStatus.Success
          let new_attempts :=
            if has_failed &&
                (sh.status ∈ [ServiceStatus.Started, ServiceStatus.Initial]) then
              sh.restart_attempts + 1
            else sh.restart_attempts
          some (setSh rt name (fun s =>
            { s with
              shutting_down_start := none
              pid := none
              restart_attempts := new_attempts
              status := new_status }), [])
  | Event.Run name =>
      match findSh rt name with
      | none => none
      | some sh =>
          if sh.is_initial then
            let backoff := sh.service.restart.backoff * sh.restart_attempts
            some (setSh rt name (fun s => { s with status := ServiceStatus.Starting }),
              [SideEffect.PrepareHealthCheck sh.service.healthiness,
               SideEffect.SpawnForkExec sh.service backoff])
          else some (rt, [])
  | Event.Kill name =>
      match findSh rt name with
      | none => none
      | some sh =>
          if sh.is_initial then
            some (setSh rt name (fun s => { s with status := ServiceStatus.Finished }), [])
          else if sh.is_running || sh.is_started || sh.is_starting then
            some (setSh rt name (fun s => s.shutting_down_started now),
              kill (sh.shutting_down_started now) none)
          else some (rt, [])
  | Event.ForceKill name =>
      match findSh rt name with
      | none => none
      | some sh =>
          if sh.is_in_killing then some (rt, kill sh (some SIGKILL))
          else some (rt, [])
  | Event.PidChanged name pid =>
      match findSh rt name with
      | none => none
      | some sh =>
          let sh2 := { sh with pid := some pid }
          if sh2.is_in_killing then
            let sh3 := { sh2 with shutting_down_start := some now }
            some (setSh rt name (fun _ => sh3), kill sh3 none)
          else some (setSh rt name (fun _ => sh2), [])
  | Event.ShuttingDownInitiated => some ({ rt with is_shutting_down := true }, [])
  | Event.Exited _ _ => some (rt, [])

/-- Apply a sequence of events in order through `apply_event`,
discarding the side effects; `none` as soon as one application panics. -/
def run_events (now : Nat) (evs : List Event) (rt : Runtime) : Option Runtime :=
  match evs with
  | [] => some rt
  | ev :: rest =>
      match apply_event now rt ev with
      | none => none
      | some (rt2, _) => run_events now rest rt2

/-- The state reached by applying one event, the runtime unchanged when
the application panics (used only to iterate total steps such as `Kill`). -/
def stepState (now : Nat) (ev : Event) (rt : Runtime) : Runtime :=
  match apply_event now rt ev with
  | some (rt2, _) => rt2
  | none => rt

/-- The `Bus` struct (bus.rs lines 7-20) reduced to the data the claims
are about: the list of ids stored alongside the fan-out senders, in join
order, and the `forward_to_sender` flag. -/
structure Bus where
  senders : List Nat
  forward_to_sender : Bool
deriving DecidableEq, Repr

/-- `Bus::new` (bus.rs lines 26-34): no subscribers, `forward_to_sender = true`. -/
def Bus.new : Bus :=
  { senders := [], forward_to_sender := true }

/-- `Bus::join_bus` (bus.rs lines 42-50): push `(senders.len(), sender)`
onto the fan-out list, then build the connector with
`sender_id = senders.len()` taken after the push. Returns the new bus
and the connector's `sender_id`. -/
def join_bus (b : Bus) : Bus × Nat :=
  let senders2 := b.senders ++ [b.senders.length]
  ({ b with senders := senders2 }, senders2.length)

/-- Join the bus `n` times, collecting the connectors' `sender_id`s in
join order. -/
def join_many : Nat → Bus → Bus × List Nat
  | 0, b => (b, [])
  | n + 1, b =>
      let p := join_bus b
      let q := join_many n p.1
      (q.1, p.2 :: q.2)

/-- One fan-out round of `Bus::dispatch` (bus.rs lines 54-72) for a
message wrapped with `sender_id`: the stored ids whose subscriber
receives the message. With `forward_to_sender = true` every subscriber
receives it; otherwise the entry whose stored id equals the message's
`sender_id` is skipped (retained but not sent to). All receivers are
taken alive, so no entry is pruned. -/
def delivered_to (b : Bus) (sender_id : Nat) : List Nat :=
  if b.forward_to_sender then b.senders
  else b.senders.filter (fun idx => idx ≠ sender_id)

section Fixtures

/-- A concrete service record used by the claim instances. -/
def mkService (name : String) (strategy : RestartStrategy) (attempts : Nat)
    (deps : List String) (dif : List String) : Service :=
  { name := name
    command := "/bin/false"
    dependencies := deps
    healthiness := none
    restart := { strategy := strategy, attempts := attempts, backoff := 0 }
    failure := { strategy := FailureStrategy.Ignore, successful_exit_code := [0] }
    termination := { signal := 15, wait := 0, die_if_failed := dif } }

/-- A fresh handler for a service, as built at startup. -/
def mkHandler (service : Service) (status : ServiceStatus) : ServiceHandler :=
  { service := service
    status := status
    pid := none
    restart_attempts := 0
    shutting_down_start := none }

end Fixtures

/-- The force-kill predicate as the claim states it, for comparison with
the source's `should_force_kill`: raw elapsed time strictly greater than
`termination.wait`, without truncation to whole seconds. -/
def should_force_kill_claim (now : Nat) (sh : ServiceHandler) : Bool :=
  sh.pid.isSome &&
    (match sh.shutting_down_start with
     | some start => now - start > sh.service.termination.wait
     | none => false)

/-- Finding a service after an in-place update that keeps its name. -/
theorem find?_updateSh (name : String) (f : ServiceHandler → ServiceHandler)
    (hf : ∀ s, (f s).service.name = s.service.name) :
    ∀ l : List ServiceHandler,
      (updateSh name f l).find? (fun sh => sh.service.name = name)
        = (l.find? (fun sh => sh.service.name = name)).map f
  | [] => rfl
  | sh :: rest => by
      by_cases h : sh.service.name = name
      · simp [updateSh, h, List.find?_cons_of_pos, hf]
      · simp only [updateSh, if_neg h]
        rw [List.find?_cons_of_neg _ (by simp [h]),
          List.find?_cons_of_neg _ (by simp [h]),
          find?_updateSh name f hf rest]

/-- `findSh` after `setSh` at the same name applies the update to the
found handler, provided the update keeps the service name. -/
theorem findSh_setSh (rt : Runtime) (name : String)
    (f : ServiceHandler → ServiceHandler)
    (hf : ∀ s, (f s).service.name = s.service.name) :
    findSh (setSh rt name f) name = (findSh rt name).map f := by
  unfold findSh setSh
  exact find?_updateSh name f hf rt.services

section ClaimFixtures

/-- Service for the C1/C2 transition-table instances. -/
def svcA : Service := mkService "a" RestartStrategy.Never 0 [] []

/-- A handler sitting in `Initial`. -/
def shInitialA : ServiceHandler := mkHandler svcA ServiceStatus.Initial

/-- A handler in `Starting` with five recorded restart attempts. -/
def shStartingRa5 : ServiceHandler :=
  { mkHandler svcA ServiceStatus.Starting with pid := some 7, restart_attempts := 5 }

/-- C3 service: `restart.attempts = 0`, strategy `OnFailure`. -/
def svcC3 : Service := mkService "a" RestartStrategy.OnFailure 0 [] []

/-- C3 handler: `Failed` after its single attempt (`restart_attempts = 1`). -/
def shC3 : ServiceHandler :=
  { mkHandler svcC3 ServiceStatus.Failed with restart_attempts := 1 }

/-- C3 runtime: the single failed service, not shutting down. -/
def rtC3 : Runtime := { is_shutting_down := false, services := [shC3] }

/-- C4 failed service `a` with `Ignore` failure strategy. -/
def svcA4 : Service := mkService "a" RestartStrategy.Never 0 [] []

/-- C4 peer `b` configured with `die_if_failed = ["a"]`. -/
def svcB4 : Service := mkService "b" RestartStrategy.Never 0 [] ["a"]

/-- C4 handler for `a`, in `Failed` with no attempt recorded. -/
def shA4 : ServiceHandler := mkHandler svcA4 ServiceStatus.Failed

/-- C4 handler for `b`, running with a pid. -/
def shB4 : ServiceHandler :=
  { mkHandler svcB4 ServiceStatus.Running with pid := some 8 }

/-- C4 runtime holding `a` and `b`. -/
def rtC4 : Runtime := { is_shutting_down := false, services := [shA4, shB4] }

/-- C5 service: strategy `Always`, `restart.attempts = 0`. -/
def svcC5 : Service := mkService "a" RestartStrategy.Always 0 [] []

/-- C5 initial runtime: the service fresh in `Initial`. -/
def rtC5 : Runtime :=
  { is_shutting_down := false, services := [mkHandler svcC5 ServiceStatus.Initial] }

/-- C5 event trace: two launch/fail cycles as the scheduler, spawner and
restart strategy produce them (`Run` and `StatusChanged(Initial)` are the
scheduler's own `next` output; `PidChanged`, `StatusChanged(Started)` and
`ServiceExited` come from the spawner). -/
def traceC5 : List Event :=
  [Event.Run "a", Event.PidChanged "a" 42,
   Event.StatusChanged "a" ServiceStatus.Started, Event.ServiceExited "a" 1,
   Event.StatusChanged "a" ServiceStatus.Initial,
   Event.Run "a", Event.PidChanged "a" 43,
   Event.StatusChanged "a" ServiceStatus.Started, Event.ServiceExited "a" 1]

end ClaimFixtures

/-- C1: applying `StatusChanged(_, Starting)` panics instead of
discarding the event: the `allowed_transitions` table has no `Starting`
entry and the source unwraps the lookup, so the handler does not survive
unchanged as the claim requires. -/
theorem c1_status_changed_starting_panics :
    handle_status_changed_event ServiceStatus.Starting shInitialA = none := rfl

/-- C2: applying `StatusChanged(_, Started)` to a `Starting` handler
with five restart attempts sets the status to `Started` but leaves
`restart_attempts` at five: the reset branch is dead because the status
was already forced to `Initial` before the guard re-checks membership. -/
theorem c2_started_entry_keeps_attempts :
    handle_status_changed_event ServiceStatus.Started shStartingRa5 =
      some { shStartingRa5 with
              status := ServiceStatus.Started
              restart_attempts := 5 } := rfl

/-- C3: for a `Failed` service with `OnFailure` strategy and
`restart.attempts = 0` whose attempts are exhausted
(`restart_attempts = 1`), the next-event is `StatusChanged(a, Initial)` —
a restart — not the `FinishedFailed` the claim requires: the
attempts-over test in `Runtime::next` selects the restart strategy
exactly when attempts are exhausted. -/
theorem c3_attempts_exhausted_restarts_instead_of_finishing :
    next rtC3 0 shC3 = [Event.StatusChanged "a" ServiceStatus.Initial] := rfl

/-- C4: for failed service `a` with `die_if_failed` peer `b`, the
emitted pair is `StatusChanged("a", InKilling)` followed by
`Kill("b")` — the `InKilling` event names the failed service itself, not
the peer as the claim requires. -/
theorem c4_die_if_failed_inkilling_names_failed_service :
    next rtC4 0 shA4 =
      [Event.StatusChanged "a" ServiceStatus.FinishedFailed,
       Event.StatusChanged "a" ServiceStatus.InKilling,
       Event.Kill "b"] := rfl

/-- C5: after two launch/fail cycles of a service with
`restart.attempts = 0` under the `Always` strategy, `restart_attempts`
reaches 2, exceeding the claimed bound `service.restart.attempts + 1 = 1`:
the counter is never reset because the reset-on-`Started` branch is dead. -/
theorem c5_restart_attempts_exceed_bound :
    (run_events 0 traceC5 rtC5).map
        (fun rt => rt.services.map ServiceHandler.restart_attempts) = some [2] ∧
      svcC5.restart.attempts + 1 = 1 := ⟨rfl, rfl⟩

section MoreClaimFixtures

/-- C6 service. -/
def svcC6 : Service := mkService "a" RestartStrategy.Never 0 [] []

/-- C6 handler, in `Initial`. -/
def shC6 : ServiceHandler := mkHandler svcC6 ServiceStatus.Initial

/-- C6 runtime: supervisor already shutting down, service still `Initial`. -/
def rtC6 : Runtime := { is_shutting_down := true, services := [shC6] }

/-- C7 service, `termination.wait = 0`. -/
def svcC7 : Service := mkService "a" RestartStrategy.Never 0 [] []

/-- C7 handler: `InKilling`, pid present, shutdown started at instant 0. -/
def shC7 : ServiceHandler :=
  { mkHandler svcC7 ServiceStatus.InKilling with
      pid := some 3, shutting_down_start := some 0 }

/-- C9 service. -/
def svcC9 : Service := mkService "a" RestartStrategy.Never 0 [] []

/-- C9 handler, in `Initial`. -/
def shC9 : ServiceHandler := mkHandler svcC9 ServiceStatus.Initial

/-- C9 runtime. -/
def rtC9 : Runtime := { is_shutting_down := false, services := [shC9] }

/-- C10 service, `termination.wait = 0`. -/
def svcCX : Service := mkService "a" RestartStrategy.Never 0 [] []

/-- C10 handler: `InKilling`, pid present, shutdown started at instant 0. -/
def shCX : ServiceHandler :=
  { mkHandler svcCX ServiceStatus.InKilling with
      pid := some 5, shutting_down_start := some 0 }

/-- C10 runtime holding that handler. -/
def rtCX : Runtime := { is_shutting_down := false, services := [shCX] }

/-- C10 witness service. -/
def svcW : Service := mkService "w" RestartStrategy.Never 0 [] []

/-- C10 witness handler: no pid, so `should_force_kill` is false at any
instant. -/
def shW : ServiceHandler := mkHandler svcW ServiceStatus.Started

/-- C10 witness runtime. -/
def rtW : Runtime := { is_shutting_down := false, services := [shW] }

end MoreClaimFixtures

/-- C6 counterexample: with the supervisor shutting down and the service
in `Initial`, applying `Run` still mutates the state — the status moves
to `Starting` — though the claim says the event must leave all state
unchanged in that case. -/
theorem c6_run_mutates_during_shutdown :
    rtC6.is_shutting_down = true ∧
      (findSh rtC6 "a").map ServiceHandler.status = some ServiceStatus.Initial ∧
      (apply_event 0 rtC6 (Event.Run "a")).map
          (fun p => (findSh p.1 "a").map ServiceHandler.status)
        = some (some ServiceStatus.Starting) := ⟨rfl, rfl, rfl⟩

/-- C6 (amended): applying `Run(name)` sets the status to `Starting`,
requests health-check preparation and a fork-exec with backoff
`restart.backoff × restart_attempts` exactly when the service's status is
`Initial`, regardless of the `is_shutting_down` flag; when the status is
not `Initial` the event leaves all state unchanged. -/
theorem c6_run_guard_is_initial_only (now : Nat) (rt : Runtime) (name : String)
    (sh : ServiceHandler) (hfind : findSh rt name = some sh) :
    apply_event now rt (Event.Run name) =
      if sh.is_initial then
        some (setSh rt name (fun s => { s with status := ServiceStatus.Starting }),
          [SideEffect.PrepareHealthCheck sh.service.healthiness,
           SideEffect.SpawnForkExec sh.service
             (sh.service.restart.backoff * sh.restart_attempts)])
      else some (rt, []) := by
  simp only [apply_event, hfind]

/-- C6 witness: the amended statement evaluated on the shutting-down
runtime with the `Initial` service. -/
theorem c6_run_guard_is_initial_only_witness :
    apply_event 0 rtC6 (Event.Run "a") =
      if shC6.is_initial then
        some (setSh rtC6 "a" (fun s => { s with status := ServiceStatus.Starting }),
          [SideEffect.PrepareHealthCheck shC6.service.healthiness,
           SideEffect.SpawnForkExec shC6.service
             (shC6.service.restart.backoff * shC6.restart_attempts)])
      else some (rtC6, []) :=
  c6_run_guard_is_initial_only 0 rtC6 "a" shC6 rfl

/-- C7 counterexample: with `termination.wait = 0`, a pid and a shutdown
started 300 ms ago, the claim's raw-duration comparison says force-kill,
but the source compares whole seconds (`Duration::as_secs`) and returns
false — so no `ForceKill` on the first 300 ms tick after `InKilling`. -/
theorem c7_subsecond_elapsed_no_force_kill :
    should_force_kill_claim 300 shC7 = true ∧
      should_force_kill 300 shC7 = false := ⟨rfl, rfl⟩

/-- C7 (amended): `should_force_kill(sh)` is true iff `pid.is_some()` ∧
`shutting_down_start.is_some()` ∧ the elapsed time and `termination.wait`
truncated to whole seconds satisfy `elapsed_secs > wait_secs`; with
`wait = 0` it first fires only after a full second has elapsed. -/
theorem c7_should_force_kill_whole_seconds (now : Nat) (sh : ServiceHandler) :
    should_force_kill now sh = true ↔
      sh.pid.isSome = true ∧
        ∃ start, sh.shutting_down_start = some start ∧
          (now - start) / 1000 > sh.service.termination.wait / 1000 := by
  cases hp : sh.pid <;> cases hs : sh.shutting_down_start <;>
    simp [should_force_kill, hp, hs]

/-- C8: after two `join_bus()` calls the connectors carry sender_ids 1
and 2 while the bus stores ids 0 and 1 beside their fan-out senders — an
off-by-one — and in the self-delivery-suppression mode a message wrapped
with the first connector's sender_id 1 is delivered to stored entry 0
(the publisher itself) and withheld from stored entry 1 (the second
connector), contradicting the claim. -/
theorem c8_sender_id_off_by_one :
    (join_many 2 Bus.new).2 = [1, 2] ∧
      (join_many 2 Bus.new).1.senders = [0, 1] ∧
      delivered_to { (join_many 2 Bus.new).1 with forward_to_sender := false } 1
        = [0] := ⟨rfl, rfl, rfl⟩

/-- C9: `Kill` on an `Initial` service sets its status to `Finished`
with no signal side effect, and any number of consecutive `Kill` events
has the same effect as one. -/
theorem c9_kill_initial_idempotent (now : Nat) (rt : Runtime) (name : String)
    (sh : ServiceHandler) (hfind : findSh rt name = some sh)
    (hinit : sh.status = ServiceStatus.Initial) (k : Nat) :
    apply_event now rt (Event.Kill name) =
      some (setSh rt name (fun s => { s with status := ServiceStatus.Finished }), []) ∧
      (stepState now (Event.Kill name))^[k + 1] rt =
        stepState now (Event.Kill name) rt := by
  have hstep1 : apply_event now rt (Event.Kill name) =
      some (setSh rt name (fun s => { s with status := ServiceStatus.Finished }), []) := by
    simp only [apply_event, hfind]
    simp [ServiceHandler.is_initial, hinit]
  have hfind1 : findSh (setSh rt name
      (fun s => { s with status := ServiceStatus.Finished })) name =
      some { sh with status := ServiceStatus.Finished } := by
    rw [findSh_setSh rt name
        (fun s => { s with status := ServiceStatus.Finished }) (fun s => rfl),
      hfind]
    rfl
  have hfix : stepState now (Event.Kill name)
      (setSh rt name (fun s => { s with status := ServiceStatus.Finished })) =
      setSh rt name (fun s => { s with status := ServiceStatus.Finished }) := by
    have happ : apply_event now
        (setSh rt name (fun s => { s with status := ServiceStatus.Finished }))
        (Event.Kill name) =
        some (setSh rt name (fun s => { s with status := ServiceStatus.Finished }), []) := by
      simp only [apply_event, hfind1]
      simp [ServiceHandler.is_initial, ServiceHandler.is_running,
        ServiceHandler.is_started, ServiceHandler.is_starting]
    simp [stepState, happ]
  have hfrt : stepState now (Event.Kill name) rt =
      setSh rt name (fun s => { s with status := ServiceStatus.Finished }) := by
    simp [stepState, hstep1]
  refine ⟨hstep1, ?_⟩
  rw [Function.iterate_succ_apply, hfrt]
  exact Function.iterate_fixed hfix k

/-- C9 witness: the idempotence evaluated on a concrete `Initial`
service, three consecutive kills collapsing to one. -/
theorem c9_kill_initial_idempotent_witness :
    apply_event 0 rtC9 (Event.Kill "a") =
      some (setSh rtC9 "a" (fun s => { s with status := ServiceStatus.Finished }), []) ∧
      (stepState 0 (Event.Kill "a"))^[3] rtC9 = stepState 0 (Event.Kill "a") rtC9 :=
  c9_kill_initial_idempotent 0 rtC9 "a" shC9 rfl rfl 2

/-- C10 counterexample: identical runtime and handler state (an
`InKilling` service with a pid, shutdown started at instant 0,
`wait = 0`) yields `[]` when `next` runs at instant 0 but
`[ForceKill, StatusChanged(FinishedFailed)]` at instant 2000 — the
output is not a function of the handler state and shutdown flag alone. -/
theorem c10_next_depends_on_clock :
    next rtCX 0 shCX = [] ∧
      next rtCX 2000 shCX =
        [Event.ForceKill "a",
         Event.StatusChanged "a" ServiceStatus.FinishedFailed] := ⟨rfl, rfl⟩

/-- C10 (amended): `Runtime::next` leaves the runtime state unchanged,
and its output is a deterministic function of the state and the current
instant; the instant enters only through `should_force_kill`. -/
theorem c10_next_read_only_and_clock_local (rt : Runtime) (sh : ServiceHandler)
    (now1 now2 : Nat)
    (h : should_force_kill now1 sh = should_force_kill now2 sh) :
    (nextR rt now1 sh).1 = rt ∧ next rt now1 sh = next rt now2 sh := by
  constructor
  · unfold nextR
    split
    · rfl
    · split <;> first
        | rfl
        | (split <;> rfl)
  · unfold next nextR
    rw [h]

/-- C10 witness: the amended statement evaluated at two instants on a
handler without a pid. -/
theorem c10_next_read_only_and_clock_local_witness :
    (nextR rtW 5 shW).1 = rtW ∧ next rtW 5 shW = next rtW 7 shW :=
  c10_next_read_only_and_clock_local rtW shW 5 7 rfl

end Horust
